import Mathlib

/-!
Shallow embedding of `src/main.py` (focus-ai): configuration checking,
the bounded window-history buffer, change detection, the OpenAI text
stage, the Play.ht speech stage, and the polling loop.  External
collaborators (environment, window introspection, chat completion,
speech synthesis) are modelled as explicit outcome parameters, so every
definition below is executable on concrete inputs.
-/

/-- Configuration record holding the three required secrets (`Config` in main.py). -/
structure Config where
  openai_api_key : String
  playht_api_key : String
  playht_user_id : String
  deriving DecidableEq

/-- `os.getenv(key, dflt)`: the environment is a partial map from names to values. -/
def getenv (env : String → Option String) (key dflt : String) : String :=
  (env key).getD dflt

/-- Python truthiness of a string: `True` exactly for non-empty strings. -/
def pyTruthy (s : String) : Bool := decide (s ≠ "")

/-- `Config.__init__`: read the three variables with empty-string default and
raise `ValueError` unless all three are truthy (`if not all([...])`). -/
def Config.init (env : String → Option String) : Except String Config :=
  let openai_api_key := getenv env "OPENAI_API_KEY" ""
  let playht_api_key := getenv env "PLAYHT_API_KEY" ""
  let playht_user_id := getenv env "PLAYHT_USER_ID" ""
  if pyTruthy openai_api_key && pyTruthy playht_api_key && pyTruthy playht_user_id then
    Except.ok ⟨openai_api_key, playht_api_key, playht_user_id⟩
  else
    Except.error "Missing required environment variables"

/-- Default `max_history` of `WindowManager.__init__`. -/
def default_max_history : Nat := 5

/-- `WindowManager.update_window_list`: append the window name, then pop the
front element when the length exceeds `max_history`. -/
def update_window_list (max_history : Nat) (last_windows : List String)
    (window_name : String) : List String :=
  if max_history < (last_windows ++ [window_name]).length then
    (last_windows ++ [window_name]).drop 1
  else
    last_windows ++ [window_name]

/-- The history buffer reached after a sequence of appends starting from `[]`. -/
def runHistory (max_history : Nat) (titles : List String) : List String :=
  titles.foldl (update_window_list max_history) []

/-- Outcome of `pyautogui.getActiveWindow().title`: a title, an
`AttributeError` (e.g. `getActiveWindow()` returned `None`), or any other
exception raised by the platform call. -/
inductive IntrospectOutcome where
  | title (t : String)
  | attrError
  | otherError (e : String)
  deriving DecidableEq

/-- `WindowManager.get_current_window`: return the active window title,
substitute `"Unknown"` when an `AttributeError` is raised, and let any
other exception propagate. -/
def get_current_window : IntrospectOutcome → Except String String
  | .title t => Except.ok t
  | .attrError => Except.ok "Unknown"
  | .otherError e => Except.error e

/-- The chat-completion request built by `OpenAIManager.get_response`
(temperature 0.7 is recorded in tenths to stay in `Nat`). -/
structure ChatRequest where
  model : String
  system_content : String
  max_tokens : Nat
  temperature_times_ten : Nat
  deriving DecidableEq

/-- The prompt interpolating the current window and history verbatim. -/
def prompt_text (current_window : String) (last_windows : List String) : String :=
  "Act as a productivity military coach. " ++
  "You are strict, ironic, sarcastic with the user and will go to extreme lengths to encourage them to work. " ++
  "Give max ONE SENTENCE SHORT replies only. " ++
  "Make it like a game\x27s mission. " ++
  "User\x27s current window is: " ++ current_window ++
  " and last windows are: " ++ toString last_windows ++ ". " ++
  "Carefully read and understand the current window, if it is social media like youtube or x.com then SCREAM at them to motivate them to focus on productive work. " ++
  "Otherwise, encourage and compliment them like an army sergeant. " ++
  "Add excess of punctuation to clearly indicate audio tone, your output will be used for text-to-speech."

/-- The concrete request sent to `client.chat.completions.create`. -/
def mk_request (current_window : String) (last_windows : List String) : ChatRequest :=
  ⟨"gpt-3.5-turbo", prompt_text current_window last_windows, 150, 7⟩

/-- The hardcoded fallback returned when the completion call raises. -/
def fallback_message : String :=
  "Soldier, we\x27re experiencing technical difficulties. Stay focused!"

/-- `OpenAIManager.get_response`: build the request, invoke the external
call, and return `{"say": ...}` with either the completion content or the
fallback message; the dictionary is modelled as an association list. -/
def get_response (call : ChatRequest → Except String String)
    (current_window : String) (last_windows : List String) : List (String × String) :=
  match call (mk_request current_window last_windows) with
  | Except.ok content => [("say", content)]
  | Except.error _ => [("say", fallback_message)]

/-- The text actually stored under `"say"` for a given collaborator behaviour. -/
def say_of (call : ChatRequest → Except String String)
    (current_window : String) (last_windows : List String) : String :=
  match call (mk_request current_window last_windows) with
  | Except.ok content => content
  | Except.error _ => fallback_message

/-- Observable actions of `TTSManager.speak_text` on the audio sink. -/
inductive AudioEvent where
  | openStream
  | ttsCall (text : String)
  | write (chunk : Nat)
  | stopStream
  | closeStream
  | logError
  deriving DecidableEq

/-- Behaviour of the synthesis/playback stage: the stream yields all chunks;
or an exception is raised after some chunks were written (covers failures in
`tts.tts`, iteration, or `audio_stream.write`); or `p.open` itself raises. -/
inductive TTSOutcome where
  | success (chunks : List Nat)
  | streamFail (written : List Nat)
  | openFail
  deriving DecidableEq

/-- `TTSManager.speak_text`: pad the text, open the sink, write each chunk in
arrival order, then `stop_stream` and `close`; any exception is caught and
logged.  Returns the sink event trace and whether an exception escaped. -/
def speak_text (text : String) (o : TTSOutcome) : List AudioEvent × Bool :=
  match o with
  | .success cs =>
      ([AudioEvent.openStream, AudioEvent.ttsCall ("   " ++ text)] ++
        cs.map AudioEvent.write ++ [AudioEvent.stopStream, AudioEvent.closeStream], false)
  | .streamFail ws =>
      ([AudioEvent.openStream, AudioEvent.ttsCall ("   " ++ text)] ++
        ws.map AudioEvent.write ++ [AudioEvent.logError], false)
  | .openFail => ([AudioEvent.logError], false)

/-- Observable actions of one iteration of `FocusAI.run`. -/
inductive Event where
  | historyAppend (t : String)
  | genCall (current : String) (hist : List String)
  | speakCall (text : String)
  | setLastSeen (t : String)
  | sleepShort
  | sleepError
  deriving DecidableEq

/-- Mutable state of `FocusAI`: the window list and `last_focused_window`. -/
structure LoopState where
  last_windows : List String
  last_focused_window : Option String
  deriving DecidableEq

/-- State at `FocusAI.__init__`: empty history, no last focused window. -/
def initState : LoopState := ⟨[], none⟩

/-- The change test `current_window != self.last_focused_window`; comparison
of a string with `None` is `True` in Python. -/
def detectsChange (last_focused_window : Option String) (current_window : String) : Bool :=
  decide (some current_window ≠ last_focused_window)

/-- One iteration of the `while True` body of `FocusAI.run`: read the window
(an exception lands in the outer `except`, long sleep); on change, append to
the history, call `get_response` with the updated list, look up `"say"`,
speak it, and only then set `last_focused_window`; always sleep 0.5s. -/
def tick (N : Nat) (st : LoopState) (intro : IntrospectOutcome)
    (call : ChatRequest → Except String String) : LoopState × List Event :=
  match get_current_window intro with
  | Except.error _ => (st, [Event.sleepError])
  | Except.ok current_window =>
    if detectsChange st.last_focused_window current_window then
      let lw := update_window_list N st.last_windows current_window
      match (get_response call current_window lw).lookup "say" with
      | some say_text =>
          (⟨lw, some current_window⟩,
           [Event.historyAppend current_window, Event.genCall current_window lw,
            Event.speakCall say_text, Event.setLastSeen current_window, Event.sleepShort])
      | none =>
          (⟨lw, st.last_focused_window⟩,
           [Event.historyAppend current_window, Event.genCall current_window lw,
            Event.sleepError])
    else
      (st, [Event.sleepShort])

/-- Iterating `tick` over a finite schedule of introspection outcomes,
collecting the event trace. -/
def runLoop (N : Nat) (call : ChatRequest → Except String String) :
    List IntrospectOutcome → LoopState → LoopState × List Event
  | [], st => (st, [])
  | i :: rest, st =>
    let r1 := tick N st i call
    let r2 := runLoop N call rest r1.1
    (r2.1, r1.2 ++ r2.2)

/-- Whether an event is a text-generation call (one per notification). -/
def isGenCall : Event → Bool
  | Event.genCall _ _ => true
  | _ => false

/-- The notifications fired during a trace. -/
def notifications (evs : List Event) : List Event := evs.filter isGenCall

/-- The window-title schedule `["A","A","B","B","A"]` read without errors. -/
def demo_inputs : List IntrospectOutcome :=
  [IntrospectOutcome.title "A", IntrospectOutcome.title "A", IntrospectOutcome.title "B",
   IntrospectOutcome.title "B", IntrospectOutcome.title "A"]

/-- One append keeps the buffer within capacity. -/
lemma length_update_le (N : Nat) (buf : List String) (t : String) (h : buf.length ≤ N) :
    (update_window_list N buf t).length ≤ N := by
  unfold update_window_list
  by_cases hc : N < (buf ++ [t]).length
  · rw [if_pos hc]
    simp only [List.length_drop, List.length_append, List.length_cons, List.length_nil] at *
    omega
  · rw [if_neg hc]
    simp only [List.length_append, List.length_cons, List.length_nil] at *
    omega

/-- Within capacity, one append is a drop of the appended list. -/
lemma update_step (N : Nat) (buf : List String) (t : String) (h : buf.length ≤ N) :
    update_window_list N buf t = (buf ++ [t]).drop (buf.length + 1 - N) := by
  unfold update_window_list
  by_cases hc : N < (buf ++ [t]).length
  · rw [if_pos hc]
    congr 1
    simp only [List.length_append, List.length_cons, List.length_nil] at hc
    omega
  · rw [if_neg hc]
    simp only [List.length_append, List.length_cons, List.length_nil] at hc
    have h0 : buf.length + 1 - N = 0 := by omega
    rw [h0, List.drop_zero]

/-- Folding appends over any in-capacity buffer keeps the newest suffix. -/
lemma foldl_update (N : Nat) (ts : List String) :
    ∀ buf : List String, buf.length ≤ N →
      ts.foldl (update_window_list N) buf = (buf ++ ts).drop ((buf ++ ts).length - N) := by
  induction ts with
  | nil =>
    intro buf h
    simp [Nat.sub_eq_zero_of_le h]
  | cons t ts ih =>
    intro buf h
    rw [List.foldl_cons, ih _ (length_update_le N buf t h), update_step N buf t h]
    have hd : buf.length + 1 - N ≤ (buf ++ [t]).length := by
      simp only [List.length_append, List.length_cons, List.length_nil]
      omega
    have key : (buf ++ [t]).drop (buf.length + 1 - N) ++ ts
        = ((buf ++ [t]) ++ ts).drop (buf.length + 1 - N) := by
      conv_rhs => rw [List.drop_append_eq_append_drop]
      rw [Nat.sub_eq_zero_of_le hd, List.drop_zero]
    rw [key, List.drop_drop]
    have harr : (buf ++ [t]) ++ ts = buf ++ t :: ts := by simp
    rw [harr]
    congr 1
    simp only [List.length_drop, List.length_append, List.length_cons, List.length_nil]
    omega

/-- C3: for every sequence of appended window titles, the history buffer's
length never exceeds N (default 5), equals min(N, number of appends), and its
elements are the appended titles in arrival order with the oldest evicted
first (the buffer is exactly the newest-N suffix of the append sequence). -/
theorem C3_history_bounded (N : Nat) (titles : List String) :
    (runHistory N titles).length = min N titles.length ∧
    runHistory N titles = titles.drop (titles.length - N) ∧
    default_max_history = 5 := by
  have h := foldl_update N titles [] (by simp)
  simp only [List.nil_append] at h
  unfold runHistory
  refine ⟨?_, by rw [h], rfl⟩
  rw [h, List.length_drop]
  omega

/-- The response dictionary always binds "say". -/
lemma lookup_say (call : ChatRequest → Except String String)
    (current_window : String) (last_windows : List String) :
    (get_response call current_window last_windows).lookup "say"
      = some (say_of call current_window last_windows) := by
  unfold get_response say_of
  cases call (mk_request current_window last_windows) <;> rfl

/-- Below capacity, an append never evicts. -/
lemma update_small (N : Nat) (buf : List String) (t : String) (h : buf.length < N) :
    update_window_list N buf t = buf ++ [t] := by
  have h' : ¬ (N < (buf ++ [t]).length) := by
    simp only [List.length_append, List.length_cons, List.length_nil]
    omega
  unfold update_window_list
  rw [if_neg h']

/-- Shape of a tick whose title differs from the last focused window. -/
lemma tick_change_shape (N : Nat) (st : LoopState) (t : String)
    (call : ChatRequest → Except String String) (h : st.last_focused_window ≠ some t) :
    tick N st (.title t) call =
      (⟨update_window_list N st.last_windows t, some t⟩,
       [Event.historyAppend t, Event.genCall t (update_window_list N st.last_windows t),
        Event.speakCall (say_of call t (update_window_list N st.last_windows t)),
        Event.setLastSeen t, Event.sleepShort]) := by
  have hd : detectsChange st.last_focused_window t = true := by
    simp only [detectsChange, decide_eq_true_eq]
    exact fun hc => h hc.symm
  unfold tick
  simp only [get_current_window, hd, if_true, lookup_say]

/-- Shape of a tick whose title equals the last focused window. -/
lemma tick_nochange (N : Nat) (st : LoopState) (t : String)
    (call : ChatRequest → Except String String) (h : st.last_focused_window = some t) :
    tick N st (.title t) call = (st, [Event.sleepShort]) := by
  have hd : detectsChange st.last_focused_window t = false := by
    simp [detectsChange, h]
  unfold tick
  simp [get_current_window, hd]

/-- After any error-free tick, the last focused window is the tick's title. -/
lemma tick_last (N : Nat) (st : LoopState) (t : String)
    (call : ChatRequest → Except String String) :
    (tick N st (.title t) call).1.last_focused_window = some t := by
  by_cases h : st.last_focused_window = some t
  · rw [tick_nochange N st t call h]
    exact h
  · rw [tick_change_shape N st t call h]

/-- C1 is false on the code: in a tick that detects a change (here the first
tick ever, seeing title "A"), the `last_focused_window` update does not occur
before the history append — its event comes later in the tick's trace. -/
theorem C1_counterexample :
    ¬ ((tick 5 initState (IntrospectOutcome.title "A") (fun _ => Except.ok "Go!")).2.indexOf
         (Event.setLastSeen "A") <
       (tick 5 initState (IntrospectOutcome.title "A") (fun _ => Except.ok "Go!")).2.indexOf
         (Event.historyAppend "A")) := by
  decide

/-- C1 (amended): in every tick that detects a change, `last_focused_window`
is set to the current title AFTER the history append and after the
text-generation and speech calls — it is the final action of the change
branch; a failure raised inside the notification stage would therefore leave
it unchanged and the same change would be reprocessed on the next tick. -/
theorem C1_amended_order (N : Nat) (st : LoopState) (t : String)
    (call : ChatRequest → Except String String) (h : st.last_focused_window ≠ some t) :
    (tick N st (.title t) call).2 =
      [Event.historyAppend t, Event.genCall t (update_window_list N st.last_windows t),
       Event.speakCall (say_of call t (update_window_list N st.last_windows t)),
       Event.setLastSeen t, Event.sleepShort] ∧
    (tick N st (.title t) call).1.last_focused_window = some t := by
  rw [tick_change_shape N st t call h]
  exact ⟨rfl, rfl⟩

/-- Witness for the amended C1 at a concrete input. -/
theorem C1_amended_order_witness :
    (initState.last_focused_window ≠ some "A") ∧
    ((tick 5 initState (.title "A") (fun _ => Except.ok "Go!")).2 =
      [Event.historyAppend "A",
       Event.genCall "A" (update_window_list 5 initState.last_windows "A"),
       Event.speakCall (say_of (fun _ => Except.ok "Go!") "A"
         (update_window_list 5 initState.last_windows "A")),
       Event.setLastSeen "A", Event.sleepShort] ∧
     (tick 5 initState (.title "A") (fun _ => Except.ok "Go!")).1.last_focused_window
       = some "A") :=
  ⟨by decide, C1_amended_order 5 initState "A" (fun _ => Except.ok "Go!") (by decide)⟩

/-- C2 is false on the code: when synthesis fails before any chunk is
written, `speak_text` returns without ever executing `close` on the sink. -/
theorem C2_counterexample :
    AudioEvent.closeStream ∉ (speak_text "Move out!" (TTSOutcome.streamFail [])).1 := by
  decide

/-- C2 (amended): on successful playback the sink is released (`stop_stream`
then `close`, in that order at the end of the trace) before `speak_text`
returns, and no exception ever escapes `speak_text`; but on an error during
synthesis/playback (or when opening the sink) the exception is caught and
swallowed WITHOUT executing `stop_stream`/`close`, so the sink is not
released on the error path. -/
theorem C2_amended_release :
    (∀ text cs, (speak_text text (TTSOutcome.success cs)).1 =
        [AudioEvent.openStream, AudioEvent.ttsCall ("   " ++ text)] ++
          cs.map AudioEvent.write ++ [AudioEvent.stopStream, AudioEvent.closeStream]) ∧
    (∀ text ws, AudioEvent.stopStream ∉ (speak_text text (TTSOutcome.streamFail ws)).1 ∧
        AudioEvent.closeStream ∉ (speak_text text (TTSOutcome.streamFail ws)).1) ∧
    (∀ text, AudioEvent.stopStream ∉ (speak_text text TTSOutcome.openFail).1 ∧
        AudioEvent.closeStream ∉ (speak_text text TTSOutcome.openFail).1) ∧
    (∀ text o, (speak_text text o).2 = false) := by
  refine ⟨fun text cs => rfl, fun text ws => ?_,
    fun text => ⟨by simp [speak_text], by simp [speak_text]⟩,
    fun text o => by cases o <;> rfl⟩
  constructor <;> simp [speak_text]

/-- C4: the change check is true on the first call for any title x (the last
focused window is initially absent), false on an immediately repeated call
with the same x (any error-free tick leaves the last focused window equal to
its title), and true again for x once a different title y has been seen. -/
theorem C4_change_check (x y : String) (hxy : x ≠ y) :
    detectsChange initState.last_focused_window x = true ∧
    (∀ (N : Nat) (st : LoopState) (call : ChatRequest → Except String String),
      (tick N st (.title x) call).1.last_focused_window = some x ∧
      detectsChange (tick N st (.title x) call).1.last_focused_window x = false) ∧
    (∀ (N : Nat) (st : LoopState) (call : ChatRequest → Except String String),
      detectsChange (tick N st (.title y) call).1.last_focused_window x = true) := by
  refine ⟨by simp [detectsChange, initState], fun N st call => ?_, fun N st call => ?_⟩
  · rw [tick_last]
    exact ⟨rfl, by simp [detectsChange]⟩
  · rw [tick_last]
    simp [detectsChange, hxy]

/-- Witness for C4 at the concrete titles "Work" and "Play". -/
theorem C4_change_check_witness :
    (("Work" : String) ≠ "Play") ∧
    (detectsChange initState.last_focused_window "Work" = true ∧
     (∀ (N : Nat) (st : LoopState) (call : ChatRequest → Except String String),
       (tick N st (.title "Work") call).1.last_focused_window = some "Work" ∧
       detectsChange (tick N st (.title "Work") call).1.last_focused_window "Work" = false) ∧
     (∀ (N : Nat) (st : LoopState) (call : ChatRequest → Except String String),
       detectsChange (tick N st (.title "Play") call).1.last_focused_window "Work" = true)) :=
  ⟨by decide, C4_change_check "Work" "Play" (by decide)⟩

/-- C5: the text-generation stage never raises; whenever the external call
errors, `get_response` returns the dictionary binding "say" to the fixed
hardcoded fallback string. -/
theorem C5_fallback_on_error (current_window : String) (last_windows : List String)
    (call : ChatRequest → Except String String) (e : String)
    (h : call (mk_request current_window last_windows) = Except.error e) :
    get_response call current_window last_windows = [("say", fallback_message)] := by
  unfold get_response
  rw [h]

/-- Witness for C5 with a collaborator that always errors. -/
theorem C5_fallback_on_error_witness :
    ((fun _ : ChatRequest => (Except.error "rate limit" : Except String String))
        (mk_request "YouTube" []) = Except.error "rate limit") ∧
    get_response (fun _ => Except.error "rate limit") "YouTube" []
      = [("say", fallback_message)] :=
  ⟨rfl, C5_fallback_on_error "YouTube" [] (fun _ => Except.error "rate limit") "rate limit" rfl⟩

/-- C6: over the error-free title schedule ["A","A","B","B","A"], the loop
fires exactly 3 notifications — first "A", the change to "B", the change
back to "A" — and (for capacity N ≥ 3) ends with history ["A","B","A"]. -/
theorem C6_three_notifications (N : Nat) (call : ChatRequest → Except String String)
    (hN : 3 ≤ N) :
    notifications (runLoop N call demo_inputs initState).2 =
      [Event.genCall "A" ["A"], Event.genCall "B" ["A", "B"],
       Event.genCall "A" ["A", "B", "A"]] ∧
    (notifications (runLoop N call demo_inputs initState).2).length = 3 ∧
    (runLoop N call demo_inputs initState).1.last_windows = ["A", "B", "A"] := by
  have u1 : update_window_list N [] "A" = ["A"] := by
    rw [update_small N [] "A" (by simp only [List.length_nil]; omega)]
    rfl
  have u2 : update_window_list N ["A"] "B" = ["A", "B"] := by
    rw [update_small N ["A"] "B" (by simp only [List.length_cons, List.length_nil]; omega)]
    rfl
  have u3 : update_window_list N ["A", "B"] "A" = ["A", "B", "A"] := by
    rw [update_small N ["A", "B"] "A" (by simp only [List.length_cons, List.length_nil]; omega)]
    rfl
  have t1 : tick N ⟨[], none⟩ (.title "A") call =
      (⟨["A"], some "A"⟩,
       [Event.historyAppend "A", Event.genCall "A" ["A"],
        Event.speakCall (say_of call "A" ["A"]), Event.setLastSeen "A", Event.sleepShort]) := by
    have h := tick_change_shape N ⟨[], none⟩ "A" call (by decide)
    dsimp only at h
    rw [u1] at h
    exact h
  have t2 : tick N ⟨["A"], some "A"⟩ (.title "A") call = (⟨["A"], some "A"⟩, [Event.sleepShort]) :=
    tick_nochange N ⟨["A"], some "A"⟩ "A" call rfl
  have t3 : tick N ⟨["A"], some "A"⟩ (.title "B") call =
      (⟨["A", "B"], some "B"⟩,
       [Event.historyAppend "B", Event.genCall "B" ["A", "B"],
        Event.speakCall (say_of call "B" ["A", "B"]), Event.setLastSeen "B", Event.sleepShort]) := by
    have h := tick_change_shape N ⟨["A"], some "A"⟩ "B" call (by decide)
    dsimp only at h
    rw [u2] at h
    exact h
  have t4 : tick N ⟨["A", "B"], some "B"⟩ (.title "B") call =
      (⟨["A", "B"], some "B"⟩, [Event.sleepShort]) :=
    tick_nochange N ⟨["A", "B"], some "B"⟩ "B" call rfl
  have t5 : tick N ⟨["A", "B"], some "B"⟩ (.title "A") call =
      (⟨["A", "B", "A"], some "A"⟩,
       [Event.historyAppend "A", Event.genCall "A" ["A", "B", "A"],
        Event.speakCall (say_of call "A" ["A", "B", "A"]), Event.setLastSeen "A",
        Event.sleepShort]) := by
    have h := tick_change_shape N ⟨["A", "B"], some "B"⟩ "A" call (by decide)
    dsimp only at h
    rw [u3] at h
    exact h
  refine ⟨?_, ?_, ?_⟩ <;>
    simp [demo_inputs, initState, runLoop, t1, t2, t3, t4, t5, notifications, isGenCall]

/-- Witness for C6 at the default capacity 5. -/
theorem C6_three_notifications_witness :
    3 ≤ 5 ∧
    (notifications (runLoop 5 (fun _ => Except.ok "Onward!") demo_inputs initState).2 =
      [Event.genCall "A" ["A"], Event.genCall "B" ["A", "B"],
       Event.genCall "A" ["A", "B", "A"]] ∧
     (notifications (runLoop 5 (fun _ => Except.ok "Onward!") demo_inputs initState).2).length
       = 3 ∧
     (runLoop 5 (fun _ => Except.ok "Onward!") demo_inputs initState).1.last_windows
       = ["A", "B", "A"]) :=
  ⟨by decide, C6_three_notifications 5 (fun _ => Except.ok "Onward!") (by decide)⟩

/-- C7 is false on the code: `get_current_window` catches only
`AttributeError`; a different platform exception is not replaced by the
sentinel "Unknown" but propagates out of the read. -/
theorem C7_counterexample :
    get_current_window (IntrospectOutcome.otherError "PyGetWindowException") ≠
      Except.ok "Unknown" := by
  simp [get_current_window]

/-- C7 (amended): the sentinel "Unknown" is substituted exactly for an
`AttributeError` (the no-focused-window case, where `getActiveWindow()` is
`None`); any other platform exception propagates out of the read and is
caught by the loop's tick-level handler, so the loop still continues (state
unchanged, long backoff sleep) but that tick substitutes no sentinel and
performs no notification. -/
theorem C7_amended_sentinel :
    get_current_window IntrospectOutcome.attrError = Except.ok "Unknown" ∧
    (∀ t, get_current_window (IntrospectOutcome.title t) = Except.ok t) ∧
    (∀ e, get_current_window (IntrospectOutcome.otherError e) = Except.error e) ∧
    (∀ (N : Nat) (st : LoopState) (call : ChatRequest → Except String String) (e : String),
      tick N st (IntrospectOutcome.otherError e) call = (st, [Event.sleepError])) :=
  ⟨rfl, fun _ => rfl, fun _ => rfl, fun _ _ _ _ => rfl⟩

/-- C8: `get_response` is total in its result shape — for every input and
every behaviour of the external call, the returned dictionary binds the key
"say", to the completion text on success and to the fallback string on
error, so the caller's lookup of "say" never fails. -/
theorem C8_say_total (call : ChatRequest → Except String String)
    (current_window : String) (last_windows : List String) :
    (get_response call current_window last_windows).lookup "say"
      = some (say_of call current_window last_windows) ∧
    get_response call current_window last_windows
      = [("say", say_of call current_window last_windows)] ∧
    ((∃ c, call (mk_request current_window last_windows) = Except.ok c ∧
        say_of call current_window last_windows = c) ∨
     say_of call current_window last_windows = fallback_message) := by
  refine ⟨lookup_say call current_window last_windows, ?_, ?_⟩
  · unfold get_response say_of
    cases call (mk_request current_window last_windows) <;> rfl
  · cases hc : call (mk_request current_window last_windows) with
    | ok c => exact Or.inl ⟨c, rfl, by unfold say_of; rw [hc]⟩
    | error e => exact Or.inr (by unfold say_of; rw [hc])

/-- C9: `Config` construction treats an environment variable set to the
empty string exactly like an absent one — it raises if and only if one of
OPENAI_API_KEY, PLAYHT_API_KEY, PLAYHT_USER_ID is unset or empty. -/
theorem C9_config_env (env : String → Option String) :
    (∃ msg, Config.init env = Except.error msg) ↔
      ((env "OPENAI_API_KEY" = none ∨ env "OPENAI_API_KEY" = some "") ∨
       (env "PLAYHT_API_KEY" = none ∨ env "PLAYHT_API_KEY" = some "") ∨
       (env "PLAYHT_USER_ID" = none ∨ env "PLAYHT_USER_ID" = some "")) := by
  have hval : ∀ o : Option String,
      (o = none ∨ o = some "") ↔ (pyTruthy (o.getD "") = false) := by
    intro o
    cases o with
    | none => simp [pyTruthy]
    | some s => simp [pyTruthy]
  have herr : ∀ (c : Bool) (v : Config) (m : String),
      (∃ msg, (if c = true then Except.ok v else Except.error m) = Except.error msg)
        ↔ c = false := by
    intro c v m
    cases c <;> simp
  simp only [Config.init, getenv]
  rw [herr, hval, hval, hval, Bool.and_eq_false_iff, Bool.and_eq_false_iff]
  tauto

/-- C10: the sentinel "Unknown" produced by an introspection failure is not
special-cased downstream — a tick reading it behaves exactly like a tick
reading the ordinary title "Unknown": when it differs from the last focused
window it is appended to the history and triggers the full notification. -/
theorem C10_unknown_ordinary (N : Nat) (st : LoopState)
    (call : ChatRequest → Except String String)
    (h : st.last_focused_window ≠ some "Unknown") :
    tick N st IntrospectOutcome.attrError call
      = tick N st (IntrospectOutcome.title "Unknown") call ∧
    tick N st IntrospectOutcome.attrError call =
      (⟨update_window_list N st.last_windows "Unknown", some "Unknown"⟩,
       [Event.historyAppend "Unknown",
        Event.genCall "Unknown" (update_window_list N st.last_windows "Unknown"),
        Event.speakCall (say_of call "Unknown" (update_window_list N st.last_windows "Unknown")),
        Event.setLastSeen "Unknown", Event.sleepShort]) := by
  have hb : tick N st IntrospectOutcome.attrError call
      = tick N st (IntrospectOutcome.title "Unknown") call := rfl
  exact ⟨hb, hb.trans (tick_change_shape N st "Unknown" call h)⟩

/-- Witness for C10 from the initial state. -/
theorem C10_unknown_ordinary_witness :
    (initState.last_focused_window ≠ some "Unknown") ∧
    (tick 5 initState IntrospectOutcome.attrError (fun _ => Except.ok "March!")
       = tick 5 initState (IntrospectOutcome.title "Unknown") (fun _ => Except.ok "March!") ∧
     tick 5 initState IntrospectOutcome.attrError (fun _ => Except.ok "March!") =
      (⟨update_window_list 5 initState.last_windows "Unknown", some "Unknown"⟩,
       [Event.historyAppend "Unknown",
        Event.genCall "Unknown" (update_window_list 5 initState.last_windows "Unknown"),
        Event.speakCall (say_of (fun _ => Except.ok "March!") "Unknown"
          (update_window_list 5 initState.last_windows "Unknown")),
        Event.setLastSeen "Unknown", Event.sleepShort])) :=
  ⟨by decide, C10_unknown_ordinary 5 initState (fun _ => Except.ok "March!") (by decide)⟩
